/-
Verification of the SleepIQ integration
(src/homeassistant/components/sleepiq/__init__.py).

The file embeds the integration's data model and operations as executable
Lean definitions and proves the specification's claims about them.

The vendor client (`Sleepyq`) is external: it is modelled as a stream of
fetch outcomes, one per `login()` + `beds_with_sleeper_status()` attempt,
each outcome also carrying whatever text the client printed to stdout
during the call.  Timestamps are natural numbers counting seconds.
-/
import Mathlib

set_option autoImplicit false

namespace SleepIQ

/-- Sleeper profile of one side of a bed (`side.sleeper`). -/
structure Sleeper where
  first_name : String
  deriving Repr, DecidableEq

/-- One side of a bed as returned by `beds_with_sleeper_status()`. -/
structure Side where
  is_in_bed : Bool
  sleep_number : Nat
  alert_id : Nat
  alert_detailed_message : String
  sleeper : Sleeper
  deriving Repr, DecidableEq

/-- A bed snapshot as returned by `beds_with_sleeper_status()`. -/
structure Bed where
  bed_id : String
  name : String
  mac_address : String
  model : String
  sku : String
  generation : String
  purchase_date : String
  registration_date : String
  size : String
  left : Side
  right : Side
  deriving Repr, DecidableEq

/-- `getattr(bed, side)` for the side strings used by the integration
(`LEFT = "left"`, `RIGHT = "right"`); any other attribute name is not a
side object, which downstream attribute access turns into an
`AttributeError`. -/
def Bed.getSide (bed : Bed) (side : String) : Option Side :=
  if side = "left" then some bed.left
  else if side = "right" then some bed.right
  else none

/-- Result of one vendor call (`login()` followed by
`beds_with_sleeper_status()`): either a bed list, or one of the three
exception classes the source handles. -/
inductive FetchResult where
  | ok (beds : List Bed)
  | connErr (msg : String)
  | attrErr
  | valueErr
  deriving Repr, DecidableEq

/-- One vendor call attempt: its result together with the text the client
printed to stdout during the call (captured by `redirect_stdout`). -/
structure FetchOutcome where
  result : FetchResult
  stdout : String
  deriving Repr, DecidableEq

/-- The exceptions that cross the boundaries modelled here. -/
inductive PyError where
  | connectionError (msg : String)
  | unknownUser (msg : String)
  | keyError (key : String)
  | attributeError (name : String)
  deriving Repr, DecidableEq

/-- Entries emitted through `_LOGGER`. -/
inductive LogEntry where
  | warning (msg : String)
  | debug (msg : String)
  deriving Repr, DecidableEq

def LogEntry.isWarning : LogEntry → Bool
  | .warning _ => true
  | .debug _ => false

/-- `MIN_TIME_BETWEEN_UPDATES = timedelta(seconds=30)`. -/
def MIN_TIME_BETWEEN_UPDATES : Nat := 30

def DOMAIN : String := "sleepiq"

def LEFT : String := "left"

def RIGHT : String := "right"

/-- The triple-quoted message raised on `ValueError`
(`SleepIQ login failed. Double-check your username and password.`). -/
def loginFailedMessage : String :=
  "\n                SleepIQ login failed. Double-check your username and password.\n            "

/-- Python-dict insertion: replace the value at an existing key in place,
otherwise append at the end (insertion order preserved). -/
def dictInsert {β : Type} (m : List (String × β)) (k : String) (v : β) :
    List (String × β) :=
  if m.any (fun p => p.1 == k) then
    m.map (fun p => if p.1 == k then (k, v) else p)
  else
    m ++ [(k, v)]

/-- The `SleepIQData` cache: the vendor client (a stream of fetch
outcomes indexed by how many vendor calls were made so far), the number of
vendor calls performed, the `beds` mapping, and the timestamp of the last
successful throttled `update` (`none` before the first one). -/
structure SleepIQData where
  client : Nat → FetchOutcome
  calls : Nat
  beds : List (String × Bed)
  lastUpdate : Option Nat

/-- Outcome of one `SleepIQData.update()` call. -/
structure UpdateResult where
  result : Except PyError Unit
  state : SleepIQData
  log : List LogEntry
  performed : Bool

/-- The body of `SleepIQData.update` (everything inside the throttled
method): perform the vendor call; on `ConnectionError` clear `beds` and
re-raise; on `AttributeError` clear `beds` and raise
`ConnectionError("SleepIQ API unavailable")`; on `ValueError` clear `beds`
and raise `UnknownUser(message)`; the `finally` block forwards non-empty
captured stdout as one warning log entry; on success a debug line is
logged when the old mapping was empty and the mapping is replaced by a
dict built from the fetched bed list keyed by `bed_id`. -/
def SleepIQData.rawUpdate (d : SleepIQData) : Except PyError Unit × SleepIQData × List LogEntry :=
  let out := d.client d.calls
  let d' : SleepIQData := { d with calls := d.calls + 1 }
  let warnLog : List LogEntry :=
    if out.stdout.length > 0 then [LogEntry.warning out.stdout] else []
  match out.result with
  | .ok beds =>
      let debugLog : List LogEntry :=
        if d'.beds.length = 0 then [LogEntry.debug "Connected to SleepIQ."] else []
      (Except.ok (),
       { d' with beds := beds.foldl (fun m b => dictInsert m b.bed_id b) [] },
       warnLog ++ debugLog)
  | .connErr msg =>
      (Except.error (.connectionError msg), { d' with beds := [] }, warnLog)
  | .attrErr =>
      (Except.error (.connectionError "SleepIQ API unavailable"), { d' with beds := [] }, warnLog)
  | .valueErr =>
      (Except.error (.unknownUser loginFailedMessage), { d' with beds := [] }, warnLog)

/-- Whether the throttle lets a call at time `t` through.
Modelled from the spec: the `Throttle` decorator (from
`homeassistant.util`, not under src/) suppresses a call when fewer than
`MIN_TIME_BETWEEN_UPDATES` seconds have elapsed since the last successful
invocation; a suppressed call is a silent no-op. -/
def SleepIQData.throttleOpen (d : SleepIQData) (now : Nat) : Bool :=
  match d.lastUpdate with
  | none => true
  | some t => decide (t + MIN_TIME_BETWEEN_UPDATES ≤ now)

/-- `SleepIQData.update` as seen by callers: the throttle gate around
`rawUpdate`.  Modelled from the spec where the decorator is concerned: a
throttled call returns immediately with the state unchanged; the
last-successful timestamp is recorded only when the body returns without
raising. -/
def SleepIQData.update (d : SleepIQData) (now : Nat) : UpdateResult :=
  if d.throttleOpen now then
    match d.rawUpdate with
    | (Except.ok _, d', log) =>
        ⟨Except.ok (), { d' with lastUpdate := some now }, log, true⟩
    | (Except.error e, d', log) =>
        ⟨Except.error e, d', log, true⟩
  else
    ⟨Except.ok (), d, [], false⟩

/-- `SleepIQData.__init__`: store the client, set `beds = {}`, then call
`self.update()`; a raise from that first update propagates out of the
constructor. -/
def SleepIQData.init (client : Nat → FetchOutcome) (now : Nat) :
    Except PyError SleepIQData × List LogEntry :=
  let d0 : SleepIQData := { client := client, calls := 0, beds := [], lastUpdate := none }
  let r := d0.update now
  (match r.result with
   | Except.ok _ => Except.ok r.state
   | Except.error e => Except.error e,
   r.log)

/-- Run a sequence of `update()` calls at the given timestamps, keeping
only the evolving cache state. -/
def runUpdates (d : SleepIQData) : List Nat → SleepIQData
  | [] => d
  | t :: ts => runUpdates (d.update t).state ts

/-- What `setup` can raise: `PlatformNotReady(e)` wrapping the caught
`ConnectionError` or `UnknownUser`, or any other exception propagating
uncaught. -/
inductive SetupError where
  | platformNotReady (inner : PyError)
  | uncaught (e : PyError)
  deriving Repr, DecidableEq

/-- Modelled from the spec: the host platform (not under src/) treats a
`PlatformNotReady` raised by `setup` as "not ready, retry init later",
i.e. that setup is retried automatically; any other abort is not. -/
def SetupError.retriedAutomatically : SetupError → Bool
  | .platformNotReady _ => true
  | .uncaught _ => false

/-- Outcome of `setup`: the constructed `DATA` cache (or the raised
error) and the sub-platforms passed to `discovery.load_platform`. -/
structure SetupResult where
  result : Except SetupError SleepIQData
  platforms : List String
  log : List LogEntry

/-- `setup(hass, config)`: build the client, construct `SleepIQData`
(whose constructor performs the first `update()`), call `DATA.update()`,
catch `(ConnectionError, UnknownUser)` as `PlatformNotReady(e)`, then
register the `"sensor"` and `"binary_sensor"` platforms.  Construction
and the explicit update happen in the same call, hence at the same
timestamp `now`. -/
def setup (client : Nat → FetchOutcome) (now : Nat) : SetupResult :=
  match SleepIQData.init client now with
  | (Except.error e, log) =>
      match e with
      | .connectionError m => ⟨Except.error (.platformNotReady (.connectionError m)), [], log⟩
      | .unknownUser m => ⟨Except.error (.platformNotReady (.unknownUser m)), [], log⟩
      | e => ⟨Except.error (.uncaught e), [], log⟩
  | (Except.ok d, log1) =>
      let r := d.update now
      match r.result with
      | Except.ok _ => ⟨Except.ok r.state, ["sensor", "binary_sensor"], log1 ++ r.log⟩
      | Except.error e =>
          match e with
          | .connectionError m =>
              ⟨Except.error (.platformNotReady (.connectionError m)), [], log1 ++ r.log⟩
          | .unknownUser m =>
              ⟨Except.error (.platformNotReady (.unknownUser m)), [], log1 ++ r.log⟩
          | e => ⟨Except.error (.uncaught e), [], log1 ++ r.log⟩

/-- The dict returned by the `device_info` property. Its `identifiers`
entry is the singleton set `{(DOMAIN, unique_id)}`. -/
structure DeviceInfo where
  identifiers : String × String
  name : String
  bed_id : String
  mac_address : String
  model : String
  sku : String
  generation : String
  purchase_date : String
  registration_date : String
  size : String
  side : String
  deriving Repr, DecidableEq

/-- The values stored in a sensor's `_attributes` dict. -/
inductive AttrValue where
  | bedInfo (info : DeviceInfo)
  | alerts (alert_id : Nat) (message : String)
  | sleeperName (s : String)
  deriving Repr, DecidableEq

/-- The `SleepIQSensor` entity state.  The shared `SleepIQData` cache is
held by reference in the source (`self.sleepiq_data`); here the cache
state is passed explicitly to `update`. -/
structure SleepIQSensor where
  bedId : String
  sideName : String
  side : Option Side
  bed : Option Bed
  availableFlag : Bool
  attributes : List (String × AttrValue)
  nameSuffix : Option String
  type : Option String
  deriving Repr, DecidableEq

/-- `SleepIQSensor.__init__`: stores the identifiers; `side`, `bed`,
`_name` and `type` start as `None`, `_available` as `False` and
`_attributes` as `{}`. -/
def SleepIQSensor.mkBase (bed_id side : String) : SleepIQSensor :=
  { bedId := bed_id, sideName := side, side := none, bed := none,
    availableFlag := false, attributes := [], nameSuffix := none, type := none }

/-- Python string interpolation of a possibly-`None` value. -/
def fmtOpt : Option String → String
  | none => "None"
  | some s => s

/-- `unique_id`: `f"Sleep Number {self._bed_id} {self._side} {self._name}"`. -/
def SleepIQSensor.unique_id (s : SleepIQSensor) : String :=
  "Sleep Number " ++ s.bedId ++ " " ++ s.sideName ++ " " ++ fmtOpt s.nameSuffix

/-- `name`: falls back to `unique_id` when `bed` or `side` is `None`,
otherwise `f"Sleep Number {self.bed.name} {sleeper_name} {self._name}"`. -/
def SleepIQSensor.name (s : SleepIQSensor) : String :=
  match s.bed, s.side with
  | some bed, some side =>
      "Sleep Number " ++ bed.name ++ " " ++ side.sleeper.first_name ++ " " ++ fmtOpt s.nameSuffix
  | _, _ => s.unique_id

/-- `available`. -/
def SleepIQSensor.available (s : SleepIQSensor) : Bool :=
  s.availableFlag

/-- `assumed_state`: `not self._available`. -/
def SleepIQSensor.assumed_state (s : SleepIQSensor) : Bool :=
  !s.availableFlag

/-- `device_state_attributes`. -/
def SleepIQSensor.device_state_attributes (s : SleepIQSensor) :
    List (String × AttrValue) :=
  s.attributes

/-- `device_info`, evaluated with the given bed (the property reads
`self.bed`, set just before in `update`). -/
def SleepIQSensor.device_info (s : SleepIQSensor) (bed : Bed) : DeviceInfo :=
  { identifiers := (DOMAIN, s.unique_id),
    name := bed.name,
    bed_id := s.bedId,
    mac_address := bed.mac_address,
    model := bed.model,
    sku := bed.sku,
    generation := bed.generation,
    purchase_date := bed.purchase_date,
    registration_date := bed.registration_date,
    size := bed.size,
    side := s.sideName }

/-- Outcome of one `SleepIQSensor.update()` call. -/
structure SensorUpdateResult where
  result : Except PyError Unit
  sensor : SleepIQSensor
  data : SleepIQData
  log : List LogEntry

/-- `SleepIQSensor.update`: delegate to the shared cache's `update()`;
on `ConnectionError` set `_available = False` and return; on any other
raise propagate; on success set `_available = True`, resolve
`self.bed = beds[self._bed_id]` (a `KeyError` when absent) and
`self.side = getattr(self.bed, self._side)`, then rebuild the
`bed_info`, `alerts` and `sleeper` attributes. -/
def SleepIQSensor.update (s : SleepIQSensor) (d : SleepIQData) (now : Nat) :
    SensorUpdateResult :=
  let r := d.update now
  match r.result with
  | Except.error (.connectionError _) =>
      ⟨Except.ok (), { s with availableFlag := false }, r.state, r.log⟩
  | Except.error e => ⟨Except.error e, s, r.state, r.log⟩
  | Except.ok _ =>
      let s1 : SleepIQSensor := { s with availableFlag := true }
      match List.lookup s1.bedId r.state.beds with
      | none => ⟨Except.error (.keyError s1.bedId), s1, r.state, r.log⟩
      | some bed =>
          let s2 : SleepIQSensor := { s1 with bed := some bed }
          match bed.getSide s2.sideName with
          | none => ⟨Except.error (.attributeError s2.sideName), s2, r.state, r.log⟩
          | some side =>
              let s3 : SleepIQSensor := { s2 with side := some side }
              let attrs := dictInsert s3.attributes "bed_info" (.bedInfo (s3.device_info bed))
              let attrs := dictInsert attrs "alerts" (.alerts side.alert_id side.alert_detailed_message)
              let attrs := dictInsert attrs "sleeper" (.sleeperName side.sleeper.first_name)
              ⟨Except.ok (), { s3 with attributes := attrs }, r.state, r.log⟩

/-- Modelled from the spec: the sensor-platform subclass (the `sensor.py`
module, not under src/) sets `self.type` and `self._name` after the base
constructor; the spec's scenario for measurement kind `sleep_number`
yields `unique_id = "Sleep Number abc123 left sleep_number"`, so the
subclass stores the measurement-kind string itself. -/
def SleepIQSensor.mkForKind (bed_id side kind : String) : SleepIQSensor :=
  { SleepIQSensor.mkBase bed_id side with nameSuffix := some kind, type := some kind }

/-! ### Sample data used by witnesses and counterexamples -/

def sleeperSam : Sleeper := ⟨"Sam"⟩

def sideLeftEx : Side := ⟨true, 45, 0, "", sleeperSam⟩

def sideRightEx : Side := ⟨false, 40, 3, "Check pump", ⟨"Alex"⟩⟩

def bedAbc : Bed :=
  ⟨"abc123", "MyBed", "AA:BB:CC", "C4", "SKU1", "2",
   "2020-01-01", "2020-01-02", "QUEEN", sideLeftEx, sideRightEx⟩

/-- Client whose every call succeeds with the single bed `bedAbc`. -/
def okClient : Nat → FetchOutcome := fun _ => ⟨.ok [bedAbc], ""⟩

/-- Client whose every call raises a transport `ConnectionError`. -/
def connFailClient : Nat → FetchOutcome := fun _ => ⟨.connErr "boom", ""⟩

/-- Client whose every call raises an `AttributeError`. -/
def attrFailClient : Nat → FetchOutcome := fun _ => ⟨.attrErr, ""⟩

/-- Client whose every call raises a `ValueError`. -/
def valueFailClient : Nat → FetchOutcome := fun _ => ⟨.valueErr, ""⟩

/-- A cache that already holds `bedAbc` and has never been throttled,
with a client that fails with a connection error. -/
def dConnFail : SleepIQData :=
  { client := connFailClient, calls := 0, beds := [("abc123", bedAbc)], lastUpdate := none }

/-- Same, with a client that fails with an attribute error. -/
def dAttrFail : SleepIQData :=
  { client := attrFailClient, calls := 0, beds := [("abc123", bedAbc)], lastUpdate := none }

/-- A facade that has already completed one successful update, with its
attributes populated. -/
def sPopulated : SleepIQSensor :=
  { SleepIQSensor.mkForKind "abc123" "left" "sleep_number" with
    bed := some bedAbc, side := some sideLeftEx, availableFlag := true,
    attributes :=
      [("bed_info", .bedInfo ((SleepIQSensor.mkForKind "abc123" "left" "sleep_number").device_info bedAbc)),
       ("alerts", .alerts 0 ""),
       ("sleeper", .sleeperName "Sam")] }

/-! ### Helper lemmas -/

theorem update_not_open (d : SleepIQData) (now : Nat)
    (h : d.throttleOpen now = false) :
    d.update now = ⟨Except.ok (), d, [], false⟩ := by
  simp [SleepIQData.update, h]

theorem update_performed_open (d : SleepIQData) (now : Nat)
    (hp : (d.update now).performed = true) :
    d.throttleOpen now = true := by
  by_cases h : d.throttleOpen now = true
  · exact h
  · rw [update_not_open d now (by simpa using h)] at hp
    simp at hp

/-! ### Claims -/

/-- C1: for every `SleepIQData.update()` call in which the fetch raises a
transport-level connection failure, the cached bed mapping becomes empty
and the connection error re-propagates to the caller. -/
theorem C1_connection_failure_clears_cache_and_reraises
    (d : SleepIQData) (now : Nat) (msg : String)
    (hp : (d.update now).performed = true)
    (hc : (d.client d.calls).result = FetchResult.connErr msg) :
    (d.update now).state.beds = [] ∧
    (d.update now).result = Except.error (PyError.connectionError msg) := by
  have h := update_performed_open d now hp
  simp [SleepIQData.update, SleepIQData.rawUpdate, h, hc]

theorem C1_connection_failure_clears_cache_and_reraises_witness :
    (dConnFail.update 0).performed = true ∧
    (dConnFail.client dConnFail.calls).result = FetchResult.connErr "boom" ∧
    (dConnFail.update 0).state.beds = [] ∧
    (dConnFail.update 0).result = Except.error (PyError.connectionError "boom") := by
  refine ⟨rfl, rfl, ?_, ?_⟩
  · exact (C1_connection_failure_clears_cache_and_reraises dConnFail 0 "boom" rfl rfl).1
  · exact (C1_connection_failure_clears_cache_and_reraises dConnFail 0 "boom" rfl rfl).2

/-- C6: for every `SleepIQData.update()` call in which the fetch raises an
attribute-style (malformed vendor response) error, the error is normalized
into the same connectivity-error kind as a plain connection failure, with
the same externally observable effect: the cache is emptied and a
connection error is raised. -/
theorem C6_attribute_error_normalized_to_connection_error
    (d : SleepIQData) (now : Nat)
    (hp : (d.update now).performed = true)
    (hc : (d.client d.calls).result = FetchResult.attrErr) :
    (d.update now).state.beds = [] ∧
    (d.update now).result = Except.error (PyError.connectionError "SleepIQ API unavailable") := by
  have h := update_performed_open d now hp
  simp [SleepIQData.update, SleepIQData.rawUpdate, h, hc]

theorem C6_attribute_error_normalized_to_connection_error_witness :
    (dAttrFail.update 0).performed = true ∧
    (dAttrFail.client dAttrFail.calls).result = FetchResult.attrErr ∧
    (dAttrFail.update 0).state.beds = [] ∧
    (dAttrFail.update 0).result = Except.error (PyError.connectionError "SleepIQ API unavailable") := by
  refine ⟨rfl, rfl, ?_, ?_⟩
  · exact (C6_attribute_error_normalized_to_connection_error dAttrFail 0 rfl rfl).1
  · exact (C6_attribute_error_normalized_to_connection_error dAttrFail 0 rfl rfl).2

/-- C2: for every `SleepIQSensor` whose `update()` observes the shared
cache's `update()` raise the connectivity error, the facade becomes
unavailable, the error is not re-raised, and its attribute mapping (hence
every previously displayed attribute value) is left exactly as before the
call. -/
theorem C2_sensor_degrades_gracefully_on_connection_error
    (s : SleepIQSensor) (d : SleepIQData) (now : Nat) (msg : String)
    (h : (d.update now).result = Except.error (PyError.connectionError msg)) :
    (s.update d now).result = Except.ok () ∧
    (s.update d now).sensor.available = false ∧
    (s.update d now).sensor.device_state_attributes = s.device_state_attributes ∧
    (s.update d now).sensor = { s with availableFlag := false } := by
  simp [SleepIQSensor.update, h, SleepIQSensor.available, SleepIQSensor.device_state_attributes]

theorem C2_sensor_degrades_gracefully_on_connection_error_witness :
    (dConnFail.update 0).result = Except.error (PyError.connectionError "boom") ∧
    (sPopulated.update dConnFail 0).result = Except.ok () ∧
    (sPopulated.update dConnFail 0).sensor.available = false ∧
    (sPopulated.update dConnFail 0).sensor.device_state_attributes = sPopulated.device_state_attributes ∧
    (sPopulated.update dConnFail 0).sensor = { sPopulated with availableFlag := false } := by
  have h := C2_sensor_degrades_gracefully_on_connection_error sPopulated dConnFail 0 "boom" rfl
  exact ⟨rfl, h.1, h.2.1, h.2.2.1, h.2.2.2⟩

/-- C8: every `SleepIQData.update()` invocation that actually performs
the vendor call — successful or not — captures the text the client
printed to stdout and, when non-empty, forwards it as exactly one
warning-level log entry. -/
theorem C8_stdout_forwarded_as_single_warning
    (d : SleepIQData) (now : Nat)
    (hp : (d.update now).performed = true) :
    (d.update now).log.filter LogEntry.isWarning =
      (if (d.client d.calls).stdout.length > 0
       then [LogEntry.warning (d.client d.calls).stdout] else []) := by
  have h := update_performed_open d now hp
  rcases hr : (d.client d.calls).result with bs | msg | _ | _
  all_goals simp [SleepIQData.update, SleepIQData.rawUpdate, h, hr, LogEntry.isWarning]
  all_goals split_ifs
  all_goals simp [LogEntry.isWarning]

/-- A cache whose client succeeds but prints a warning to stdout. -/
def dNoisy : SleepIQData :=
  { client := fun _ => ⟨.ok [bedAbc], "upgrade your firmware"⟩,
    calls := 0, beds := [], lastUpdate := none }

theorem C8_stdout_forwarded_as_single_warning_witness :
    (dNoisy.update 0).performed = true ∧
    (dNoisy.update 0).log.filter LogEntry.isWarning =
      (if (dNoisy.client dNoisy.calls).stdout.length > 0
       then [LogEntry.warning (dNoisy.client dNoisy.calls).stdout] else []) :=
  ⟨rfl, C8_stdout_forwarded_as_single_warning dNoisy 0 rfl⟩

/-- C10: a freshly constructed `SleepIQSensor`, before any successful
update, reports `available = False`, `assumed_state = True`, an empty
attribute mapping, and a displayed name equal to its unique identifier
string. -/
theorem C10_fresh_sensor_defaults (bed_id side : String) :
    (SleepIQSensor.mkBase bed_id side).available = false ∧
    (SleepIQSensor.mkBase bed_id side).assumed_state = true ∧
    (SleepIQSensor.mkBase bed_id side).device_state_attributes = [] ∧
    (SleepIQSensor.mkBase bed_id side).name = (SleepIQSensor.mkBase bed_id side).unique_id := by
  simp [SleepIQSensor.mkBase, SleepIQSensor.available, SleepIQSensor.assumed_state,
        SleepIQSensor.device_state_attributes, SleepIQSensor.name]

/-- The cache of the C5 scenario: it already holds bed `"abc123"` (left
side: sleeper "Sam", sleep number 45, alert_id 0) and its client keeps
returning that bed. -/
def dScenario : SleepIQData :=
  { client := okClient, calls := 0, beds := [("abc123", bedAbc)], lastUpdate := none }

/-- The facade of the C5 scenario, for `("abc123", left, sleep_number)`. -/
def sScenario : SleepIQSensor :=
  SleepIQSensor.mkForKind "abc123" "left" "sleep_number"

/-- C5: in the scenario cache (bed `"abc123"`, left side with sleeper
"Sam", sleep number 45, alert_id 0), the facade for
`("abc123", left, sleep_number)` reports, after one successful update,
`available = true`, `unique_id = "Sleep Number abc123 left sleep_number"`
and attribute `sleeper = "Sam"`. -/
theorem C5_scenario_success_report :
    (sScenario.update dScenario 0).result = Except.ok () ∧
    (sScenario.update dScenario 0).sensor.available = true ∧
    (sScenario.update dScenario 0).sensor.unique_id = "Sleep Number abc123 left sleep_number" ∧
    List.lookup "sleeper" (sScenario.update dScenario 0).sensor.device_state_attributes =
      some (AttrValue.sleeperName "Sam") := by
  refine ⟨rfl, rfl, rfl, rfl⟩

/-- C9: when the first vendor fetch succeeds, `setup` constructs the
cache (whose constructor performs that fetch), and the explicit
`DATA.update()` right after construction falls inside the throttle
window and is a no-op: startup performs exactly one login+fetch
(`calls = 1`) and registers the two sub-platforms. -/
theorem C9_startup_performs_exactly_one_fetch
    (client : Nat → FetchOutcome) (now : Nat) (bs : List Bed)
    (hc : (client 0).result = FetchResult.ok bs) :
    (setup client now).result =
      Except.ok { client := client, calls := 1,
                  beds := bs.foldl (fun m b => dictInsert m b.bed_id b) [],
                  lastUpdate := some now } ∧
    (setup client now).platforms = ["sensor", "binary_sensor"] := by
  simp [setup, SleepIQData.init, SleepIQData.update, SleepIQData.rawUpdate,
        SleepIQData.throttleOpen, MIN_TIME_BETWEEN_UPDATES, hc]

theorem C9_startup_performs_exactly_one_fetch_witness :
    (okClient 0).result = FetchResult.ok [bedAbc] ∧
    (setup okClient 0).result =
      Except.ok { client := okClient, calls := 1,
                  beds := [bedAbc].foldl (fun m b => dictInsert m b.bed_id b) [],
                  lastUpdate := some 0 } ∧
    (setup okClient 0).platforms = ["sensor", "binary_sensor"] :=
  ⟨rfl, (C9_startup_performs_exactly_one_fetch okClient 0 [bedAbc] rfl).1,
        (C9_startup_performs_exactly_one_fetch okClient 0 [bedAbc] rfl).2⟩

/-! ### Throttle-sequence lemmas -/

theorem update_ok_state (d : SleepIQData) (now : Nat)
    (hp : (d.update now).performed = true)
    (hok : (d.update now).result = Except.ok ()) :
    (d.update now).state.lastUpdate = some now ∧
    (d.update now).state.calls = d.calls + 1 := by
  have h := update_performed_open d now hp
  rcases hr : (d.client d.calls).result with bs | msg | _ | _ <;>
    simp [SleepIQData.update, SleepIQData.rawUpdate, h, hr] at hok ⊢

/-- Once the last successful update happened at `t0`, any call earlier
than `t0 + 30` is a silent no-op, so a whole sequence of such calls
leaves the state untouched. -/
theorem runUpdates_all_throttled (ts : List Nat) (s1 : SleepIQData) (t0 : Nat)
    (hl : s1.lastUpdate = some t0)
    (hts : ∀ t ∈ ts, t < t0 + MIN_TIME_BETWEEN_UPDATES) :
    runUpdates s1 ts = s1 := by
  induction ts with
  | nil => rfl
  | cons t ts ih =>
      have ht : t < t0 + MIN_TIME_BETWEEN_UPDATES := hts t (by simp)
      have hopen : s1.throttleOpen t = false := by
        simp [SleepIQData.throttleOpen, hl]
        omega
      rw [runUpdates, update_not_open s1 t hopen]
      exact ih (fun u hu => hts u (by simp [hu]))

theorem update_open_performed (d : SleepIQData) (now : Nat)
    (h : d.throttleOpen now = true) :
    (d.update now).performed = true ∧
    (d.update now).state.calls = d.calls + 1 ∧
    ((d.update now).state.lastUpdate = some now ∨
     (d.update now).state.lastUpdate = d.lastUpdate) := by
  rcases hr : (d.client d.calls).result with bs | msg | _ | _ <;>
    simp [SleepIQData.update, SleepIQData.rawUpdate, h, hr]

/-- The throttle stays open across one call for any time at least 30
seconds later. -/
theorem throttleOpen_next (d : SleepIQData) (t t' : Nat)
    (h : d.throttleOpen t = true) (hstep : t + MIN_TIME_BETWEEN_UPDATES ≤ t') :
    (d.update t).state.throttleOpen t' = true := by
  rcases (update_open_performed d t h).2.2 with hl | hl
  · simp [SleepIQData.throttleOpen, hl, hstep]
  · rw [SleepIQData.throttleOpen, hl]
    rw [SleepIQData.throttleOpen] at h
    rcases hd : d.lastUpdate with _ | u
    · simp
    · rw [hd] at h
      simp at h ⊢
      omega

/-- With the throttle initially open and consecutive gaps of at least 30
seconds, every call in the sequence performs a fetch. -/
theorem runUpdates_all_performed (ts : List Nat) (d : SleepIQData) (t : Nat)
    (h : d.throttleOpen t = true)
    (hchain : List.Chain (fun a b => a + MIN_TIME_BETWEEN_UPDATES ≤ b) t ts) :
    (runUpdates d (t :: ts)).calls = d.calls + (t :: ts).length := by
  induction ts generalizing d t with
  | nil =>
      rw [runUpdates, runUpdates, (update_open_performed d t h).2.1]
      rfl
  | cons t' ts ih =>
      rcases hchain with _ | ⟨hstep, hchain⟩
      have h' := throttleOpen_next d t t' h hstep
      have := ih (d.update t).state t' h' hchain
      rw [runUpdates]
      rw [this, (update_open_performed d t h).2.1]
      simp
      omega

/-- A fresh cache (never updated) whose client always succeeds with the
single bed `bedAbc`. -/
def dFresh : SleepIQData :=
  { client := okClient, calls := 0, beds := [], lastUpdate := none }

/-- C3 (counterexample): calls at times 0, 20, 40 are consecutively
spaced less than 30 seconds apart (20 and 20), every fetch succeeds, yet
two fetches are performed — the call at 40 is at least 30 seconds past
the last successful fetch (at 0), so the throttle lets it through.  This
refutes "only the first call performs a login+fetch" for sequences whose
consecutive spacing is below 30 seconds. -/
theorem C3_counterexample_consecutive_gaps :
    dFresh.calls = 0 ∧ 20 - 0 < 30 ∧ 40 - 20 < 30 ∧
    (runUpdates dFresh [0, 20, 40]).calls = 2 := by
  decide

/-- C3 (amended): (a) after one performed and successful `update()` at
`t0`, every further call strictly inside the 30-second window after `t0`
is a no-op leaving the cache state (hence the bed mapping) unchanged, and
the window's total fetch count is the one fetch of the first call;
(b) for calls whose consecutive gaps are all at least 30 seconds
(starting with an open throttle), every call performs exactly one
fetch. -/
theorem C3_amended_throttle_window_behaviour :
    (∀ (d : SleepIQData) (t0 : Nat) (ts : List Nat),
       (d.update t0).performed = true →
       (d.update t0).result = Except.ok () →
       (∀ t ∈ ts, t < t0 + MIN_TIME_BETWEEN_UPDATES) →
       runUpdates (d.update t0).state ts = (d.update t0).state ∧
       (d.update t0).state.calls = d.calls + 1) ∧
    (∀ (d : SleepIQData) (t : Nat) (ts : List Nat),
       d.throttleOpen t = true →
       List.Chain (fun a b => a + MIN_TIME_BETWEEN_UPDATES ≤ b) t ts →
       (runUpdates d (t :: ts)).calls = d.calls + (t :: ts).length) := by
  constructor
  · intro d t0 ts hp hok hts
    obtain ⟨hl, hcalls⟩ := update_ok_state d t0 hp hok
    exact ⟨runUpdates_all_throttled ts _ t0 hl hts, hcalls⟩
  · intro d t ts h hchain
    exact runUpdates_all_performed ts d t h hchain

theorem C3_amended_throttle_window_behaviour_witness :
    (runUpdates (dFresh.update 0).state [5, 10, 29] = (dFresh.update 0).state ∧
     (dFresh.update 0).state.calls = dFresh.calls + 1) ∧
    (runUpdates dFresh [0, 30, 60]).calls = dFresh.calls + 3 := by
  constructor
  · exact C3_amended_throttle_window_behaviour.1 dFresh 0 [5, 10, 29] rfl rfl (by decide)
  · exact C3_amended_throttle_window_behaviour.2 dFresh 0 [30, 60] rfl
      (List.Chain.cons (by decide) (List.Chain.cons (by decide) List.Chain.nil))

/-- A bed with a different identifier: the account no longer contains
`"abc123"`. -/
def bedOther : Bed :=
  { bedAbc with bed_id := "zzz999", name := "OtherBed" }

/-- A cache that still holds `bedAbc` but whose client now returns only
`bedOther` — bed `"abc123"` was removed from the account between
polls. -/
def dBedGone : SleepIQData :=
  { client := fun _ => ⟨.ok [bedOther], ""⟩, calls := 0,
    beds := [("abc123", bedAbc)], lastUpdate := none }

/-- C4 (counterexample): with bed `"abc123"` removed from the account,
the already-resolved facade's next poll raises a `KeyError` from
`self.sleepiq_data.beds[self._bed_id]` — an exception does escape the
poll — and its displayed name still shows the stale bed data, not the
unique identifier string. -/
theorem C4_counterexample_removed_bed_raises :
    (sPopulated.update dBedGone 0).result = Except.error (PyError.keyError "abc123") ∧
    (sPopulated.update dBedGone 0).sensor.name ≠ (sPopulated.update dBedGone 0).sensor.unique_id := by
  refine ⟨rfl, by decide⟩

/-- C4 (amended): (a) when the cache refetch succeeds but the facade's
bed identifier is absent from the refreshed mapping, the poll raises a
key-lookup error and leaves the previously resolved bed, side and
attributes as they were; (b) the displayed name falls back to the stable
unique identifier string exactly while bed or side is unresolved
(`None`), e.g. before the first successful update. -/
theorem C4_amended_keyerror_and_name_fallback :
    (∀ (s : SleepIQSensor) (d : SleepIQData) (now : Nat),
       (d.update now).result = Except.ok () →
       List.lookup s.bedId (d.update now).state.beds = none →
       (s.update d now).result = Except.error (PyError.keyError s.bedId) ∧
       (s.update d now).sensor.bed = s.bed ∧
       (s.update d now).sensor.side = s.side ∧
       (s.update d now).sensor.device_state_attributes = s.device_state_attributes) ∧
    (∀ s : SleepIQSensor, (s.bed = none ∨ s.side = none) → s.name = s.unique_id) := by
  constructor
  · intro s d now hok hlook
    simp [SleepIQSensor.update, hok, hlook, SleepIQSensor.device_state_attributes]
  · intro s hnone
    rcases hb : s.bed with _ | bed
    · simp [SleepIQSensor.name, hb]
    · rcases hs : s.side with _ | side
      · simp [SleepIQSensor.name, hb, hs]
      · rcases hnone with h | h
        · rw [hb] at h; cases h
        · rw [hs] at h; cases h

theorem C4_amended_keyerror_and_name_fallback_witness :
    ((sPopulated.update dBedGone 0).result = Except.error (PyError.keyError "abc123") ∧
     (sPopulated.update dBedGone 0).sensor.bed = sPopulated.bed ∧
     (sPopulated.update dBedGone 0).sensor.side = sPopulated.side ∧
     (sPopulated.update dBedGone 0).sensor.device_state_attributes = sPopulated.device_state_attributes) ∧
    (SleepIQSensor.mkBase "abc123" "left").name = (SleepIQSensor.mkBase "abc123" "left").unique_id := by
  constructor
  · exact C4_amended_keyerror_and_name_fallback.1 sPopulated dBedGone 0 rfl rfl
  · exact C4_amended_keyerror_and_name_fallback.2 (SleepIQSensor.mkBase "abc123" "left") (Or.inl rfl)

/-- C7 (counterexample): when the startup fetch raises the
credential/value error, `setup` raises `PlatformNotReady` — the very same
outer condition it raises for a transport connection failure, and the
condition the host retries automatically — so the authentication failure
is not surfaced as a distinct non-retried condition at the setup
boundary. -/
theorem C7_counterexample_wrapped_in_platform_not_ready :
    (setup valueFailClient 0).result =
      Except.error (SetupError.platformNotReady (PyError.unknownUser loginFailedMessage)) ∧
    (setup connFailClient 0).result =
      Except.error (SetupError.platformNotReady (PyError.connectionError "boom")) ∧
    SetupError.retriedAutomatically
      (SetupError.platformNotReady (PyError.unknownUser loginFailedMessage)) = true := by
  refine ⟨rfl, rfl, rfl⟩

/-- C7 (amended): a credential/value error during the startup fetch is
normalized into the authentication-error kind with the human-readable
hint to check credentials, and it aborts setup (no platform is
registered); but `setup` wraps it — exactly like a connectivity failure —
in the platform-not-ready condition, which the host platform retries
automatically rather than treating as a distinct non-retried
"unknown/invalid user" abort. -/
theorem C7_amended_credential_error_aborts_as_platform_not_ready
    (client : Nat → FetchOutcome) (now : Nat)
    (hc : (client 0).result = FetchResult.valueErr) :
    (setup client now).result =
      Except.error (SetupError.platformNotReady (PyError.unknownUser loginFailedMessage)) ∧
    (setup client now).platforms = [] ∧
    SetupError.retriedAutomatically
      (SetupError.platformNotReady (PyError.unknownUser loginFailedMessage)) = true := by
  simp [setup, SleepIQData.init, SleepIQData.update, SleepIQData.rawUpdate,
        SleepIQData.throttleOpen, hc, SetupError.retriedAutomatically]

theorem C7_amended_credential_error_witness :
    (valueFailClient 0).result = FetchResult.valueErr ∧
    ((setup valueFailClient 0).result =
       Except.error (SetupError.platformNotReady (PyError.unknownUser loginFailedMessage)) ∧
     (setup valueFailClient 0).platforms = [] ∧
     SetupError.retriedAutomatically
       (SetupError.platformNotReady (PyError.unknownUser loginFailedMessage)) = true) :=
  ⟨rfl, C7_amended_credential_error_aborts_as_platform_not_ready valueFailClient 0 rfl⟩

end SleepIQ
